import Mathlib

/-!
# Verification of the mvfst-old QUIC core against its specification

A shallow embedding of the packet builder, packet rebuilder, simple-frame
processor, pacer and connection-id length codec of the mvfst-old QUIC
implementation, together with theorems settling the specification claims.

Machine integers are modelled as `Nat` (with explicit `% 2^w` where C++
conversions truncate); time points and durations are microsecond counts;
fallible operations return `Option` or `Except`; C++ exceptions are
`Except.error` values carrying the state at the throw point.
-/

namespace Mvfst

/-! ## Connection-id length codec (src/quic/codec/QuicConnectionId.cpp)

The legacy `MVFST_OLD` long-header form packs the two connection-id lengths
into one byte.  `uint8_t` arithmetic is modelled with `% 256`; the C++ shift
`dstByte << 4` happens after integral promotion (no truncation), the final
conversion of the return value back to `uint8_t` truncates. -/

/-- `decodeConnectionIdLengths` from QuicConnectionId.cpp lines 96-102:
`dcidLen = connIdSize >> 4`, `scidLen = connIdSize & 0x0F`, then each
length code maps `0 ↦ 0`, `n ↦ n + 3`. -/
def decodeConnectionIdLengths (connIdSize : Nat) : Nat × Nat :=
  let dcidLen := (connIdSize % 256) >>> 4
  let scidLen := (connIdSize % 256) &&& 0x0F
  (if dcidLen = 0 then 0 else dcidLen + 3,
   if scidLen = 0 then 0 else scidLen + 3)

/-- `encodeConnectionIdLengths` from QuicConnectionId.cpp lines 104-114:
each length maps `0 ↦ 0`, `n ↦ n − 3` as a `uint8_t`, and the result byte is
`(dstByte << 4) | srcByte` truncated back to `uint8_t`. -/
def encodeConnectionIdLengths
    (destinationConnectionIdSize sourceConnectionIdSize : Nat) : Nat :=
  let dstByte :=
    if destinationConnectionIdSize = 0 then 0
    else (destinationConnectionIdSize + 256 - 3) % 256
  let srcByte :=
    if sourceConnectionIdSize = 0 then 0
    else (sourceConnectionIdSize + 256 - 3) % 256
  ((dstByte <<< 4) ||| srcByte) % 256

/-! ## Pacer (src/quic/congestion_control/Pacer.cpp)

`DefaultPacer` state.  The token count is modelled as `Int` so that
non-negativity is a provable invariant of the code's guarded updates rather
than an artifact of the type.  The injected `pacingRateCalculator_` is
modelled by passing its result `(interval, burstSize)` to `refreshPacingRate`
directly. -/

structure TransportSettings where
  writeConnectionDataPacketsLimit : Nat
  pacingTimerTickInterval : Nat
  selfActiveConnectionIdLimit : Nat
  ackDelayExponent : Nat
  deriving DecidableEq, Repr

structure PacerState where
  tokens : Int
  batchSize : Nat
  writeInterval : Nat
  scheduledWriteTime : Option Nat
  cachedBatchSize : Nat
  appLimited : Bool
  deriving DecidableEq, Repr

/-- The `DefaultPacer` constructor (Pacer.cpp lines 16-24). -/
def DefaultPacer.init (ts : TransportSettings) : PacerState :=
  { tokens := (ts.writeConnectionDataPacketsLimit : Int)
    batchSize := ts.writeConnectionDataPacketsLimit
    writeInterval := 0
    scheduledWriteTime := none
    cachedBatchSize := ts.writeConnectionDataPacketsLimit
    appLimited := false }

/-- `DefaultPacer::refreshPacingRate` (Pacer.cpp lines 29-48).  `rate` is the
result of the injected rate calculator. -/
def refreshPacingRate (ts : TransportSettings) (p : PacerState)
    (rtt : Nat) (rate : Nat × Nat) : PacerState :=
  let p' :=
    if rtt < ts.pacingTimerTickInterval then
      { p with writeInterval := 0
               batchSize := ts.writeConnectionDataPacketsLimit }
    else
      { p with writeInterval := rate.1
               batchSize := rate.2
               tokens := p.tokens + (rate.2 : Int) }
  { p' with cachedBatchSize := p'.batchSize }

/-- `DefaultPacer::onPacedWriteScheduled` (Pacer.cpp lines 50-52). -/
def onPacedWriteScheduled (p : PacerState) (currentTime : Nat) : PacerState :=
  { p with scheduledWriteTime := some currentTime }

/-- `DefaultPacer::onPacketSent` (Pacer.cpp lines 54-58): decrement the token
count only when it is non-zero. -/
def onPacketSent (p : PacerState) : PacerState :=
  if p.tokens ≠ 0 then { p with tokens := p.tokens - 1 } else p

/-- `DefaultPacer::onPacketsLoss` (Pacer.cpp lines 60-62). -/
def onPacketsLoss (p : PacerState) : PacerState :=
  { p with tokens := 0 }

/-- `DefaultPacer::getTimeUntilNextWrite` (Pacer.cpp lines 64-66). -/
def getTimeUntilNextWrite (p : PacerState) : Nat :=
  if p.appLimited || p.tokens ≠ 0 then 0 else p.writeInterval

/-- `DefaultPacer::updateAndGetWriteBatchSize` (Pacer.cpp lines 68-93).
Returns the updated state and the returned batch size.  The `SCOPE_EXIT`
clears `scheduledWriteTime_` on every return path.  `std::ceil` of
`adjusted * batch / interval` is the exact ceiling for the magnitudes in use;
it is modelled by ceiling division on `Nat`. -/
def updateAndGetWriteBatchSize (ts : TransportSettings) (p : PacerState)
    (currentTime : Nat) : PacerState × Int :=
  if p.appLimited then
    ({ p with cachedBatchSize := ts.writeConnectionDataPacketsLimit
              scheduledWriteTime := none },
     (ts.writeConnectionDataPacketsLimit : Int))
  else if p.writeInterval = 0 then
    ({ p with scheduledWriteTime := none }, (p.batchSize : Int))
  else
    match p.scheduledWriteTime with
    | none => ({ p with scheduledWriteTime := none }, p.tokens)
    | some sched =>
      if sched ≥ currentTime then
        ({ p with scheduledWriteTime := none }, p.tokens)
      else
        let adjustedInterval := currentTime - sched + p.writeInterval
        let cached :=
          (adjustedInterval * p.batchSize + p.writeInterval - 1) /
            p.writeInterval
        let newTokens := p.tokens +
          (if cached > p.batchSize then ((cached - p.batchSize : Nat) : Int)
           else 0)
        ({ p with cachedBatchSize := cached
                  tokens := newTokens
                  scheduledWriteTime := none },
         newTokens)

/-- One observable pacer call; the argument of `refresh` is the pair returned
by the injected rate calculator, and `update` discards the returned batch
size. -/
inductive PacerOp where
  | sent : PacerOp
  | loss : PacerOp
  | refresh (rtt : Nat) (rate : Nat × Nat) : PacerOp
  | schedule (t : Nat) : PacerOp
  | update (now : Nat) : PacerOp
  | setAppLimitedOp (b : Bool) : PacerOp
  deriving DecidableEq, Repr

def pacerStep (ts : TransportSettings) (p : PacerState) : PacerOp → PacerState
  | .sent => onPacketSent p
  | .loss => onPacketsLoss p
  | .refresh rtt rate => refreshPacingRate ts p rtt rate
  | .schedule t => onPacedWriteScheduled p t
  | .update now => (updateAndGetWriteBatchSize ts p now).1
  | .setAppLimitedOp b => { p with appLimited := b }

def runPacer (ts : TransportSettings) (p : PacerState)
    (ops : List PacerOp) : PacerState :=
  ops.foldl (pacerStep ts) p

/-! ## Frame model (src/quic/codec/Types.h)

`ConnectionId` is a byte sequence of length at most 20 with byte-exact
equality; the simple-frame family is the tagged union managed by
SimpleFrameFunctions.cpp. -/

structure ConnectionId where
  bytes : List Nat
  deriving DecidableEq, Repr

/-- `StatelessResetToken` is exactly 16 bytes; only equality matters here. -/
abbrev ResetToken := List Nat

abbrev StreamId := Nat
abbrev PacketNum := Nat

/-- `QuicSimpleFrame` variants (Types.h), with the fields the respective C++
structs carry. -/
inductive QuicSimpleFrame where
  | ping : QuicSimpleFrame
  | stopSending (streamId : StreamId) (errorCode : Nat) : QuicSimpleFrame
  | minStreamData (streamId : StreamId) (maximumData minimumStreamOffset : Nat) :
      QuicSimpleFrame
  | expiredStreamData (streamId : StreamId) (minimumStreamOffset : Nat) :
      QuicSimpleFrame
  | pathChallenge (pathData : Nat) : QuicSimpleFrame
  | pathResponse (pathData : Nat) : QuicSimpleFrame
  | newConnectionId (sequenceNumber retirePriorTo : Nat)
      (connectionId : ConnectionId) (token : ResetToken) : QuicSimpleFrame
  | maxStreams (maxStreams : Nat) (isForBidirectional : Bool) : QuicSimpleFrame
  | retireConnectionId (sequenceNumber : Nat) : QuicSimpleFrame
  deriving DecidableEq, Repr

/-- One entry of `conn.peerConnectionIds` (`ConnectionIdData`): the fields
`emplace_back`d by the NEW_CONNECTION_ID receive handler. -/
structure PeerConnIdData where
  connId : ConnectionId
  sequenceNumber : Nat
  token : ResetToken
  deriving DecidableEq, Repr

/-- A stream's retransmission-buffer entry (`StreamBuffer`): offset, the chain
length of its data, and the FIN bit. -/
structure StreamBuffer where
  offset : Nat
  dataLen : Nat
  fin : Bool
  deriving DecidableEq, Repr

/-- The slice of `QuicStreamState` the rebuilder and simple-frame processor
consult.  `canRetransmit` models `retransmittable(stream)` (defined outside
src/: per the spec a closed/reset stream is not retransmittable);
`wantsFlowControlUpdate` models `stream->shouldSendFlowControl()`, and
`freshMaxStreamData` the value `generateMaxStreamDataFrame` re-derives from
current state (spec §4.4: a fresh value, not the stale limit). -/
structure StreamState where
  retransmissionBuffer : List (Nat × StreamBuffer)
  canRetransmit : Bool
  wantsFlowControlUpdate : Bool
  freshMaxStreamData : Nat
  deriving DecidableEq, Repr

/-- The slice of `QuicConnectionStateBase` used by the simple-frame processor
and the packet rebuilder.

* `streams` models the stream manager's live-stream map (`streamExists` /
  `getStream`).
* `outstandingPathValidation` holds the path data of the outstanding
  PATH_CHALLENGE, `pathChallengeStartTime` the time it was sent, and
  `lastRttSample`, modelled from the spec, records the sample passed to
  `updateRtt` (spec §4.7: update RTT with `now − pathChallengeStartTime`).
* `currentPeerConnId`, the peer connection-id currently in use
  (`serverConnectionId` for a client, `clientConnectionId` for a server).
* `canRotatePeerConnId`, modelled from the spec, is the success of
  `retireAndSwitchPeerConnectionIds` (spec §4.7: rotate to a new peer
  connection-id, failing when none remain).
* `freshMaxData`, modelled from the spec, is the value
  `generateMaxDataFrame` re-derives from current flow-control state.
* `oneRttCryptoRetransmissionBuffer` is
  `conn.cryptoState->oneRttStream.retransmissionBuffer`. -/
structure Conn where
  streams : List (StreamId × StreamState)
  pendingFrames : List QuicSimpleFrame
  cancelPingTimeout : Bool
  schedulePathValidationTimeout : Bool
  outstandingPathValidation : Option Nat
  pathChallengeStartTime : Nat
  lastRttSample : Option Nat
  peerConnectionIds : List PeerConnIdData
  transportSettings : TransportSettings
  currentPeerConnId : Option ConnectionId
  canRotatePeerConnId : Bool
  maxLocalBidirectionalStreams : Nat
  maxLocalUnidirectionalStreams : Nat
  outstandingPacketEvents : List PacketNum
  outstandingClonedPacketsCount : Nat
  freshMaxData : Nat
  oneRttCryptoRetransmissionBuffer : List (Nat × StreamBuffer)
  deriving DecidableEq, Repr

def streamExists (conn : Conn) (id : StreamId) : Bool :=
  (conn.streams.lookup id).isSome

def getStream (conn : Conn) (id : StreamId) : Option StreamState :=
  conn.streams.lookup id

/-! ## Simple-frame processor (src/quic/state/SimpleFrameFunctions.cpp) -/

/-- `updateSimpleFrameOnPacketClone` (SimpleFrameFunctions.cpp lines 35-77):
filter a simple frame during packet cloning.  Every surviving frame is
returned as a copy of the input; PATH_RESPONSE is never cloned. -/
def updateSimpleFrameOnPacketClone (conn : Conn) (frame : QuicSimpleFrame) :
    Option QuicSimpleFrame :=
  match frame with
  | .ping => some frame
  | .stopSending streamId _ =>
      if streamExists conn streamId then some frame else none
  | .minStreamData streamId _ _ =>
      if streamExists conn streamId then some frame else none
  | .expiredStreamData streamId _ =>
      if streamExists conn streamId then some frame else none
  | .pathChallenge pathData =>
      -- cloned only when it is still the outstanding path validation
      match conn.outstandingPathValidation with
      | none => none
      | some outstanding =>
          if pathData ≠ outstanding then none else some frame
  | .pathResponse _ => none
  | .newConnectionId _ _ _ _ => some frame
  | .maxStreams _ _ => some frame
  | .retireConnectionId _ => some frame

/-- The C++ exceptions thrown by `updateSimpleFrameOnPacketReceived`,
tagged by throw site. -/
inductive TransportErr where
  /-- "Retire prior to greater than sequence number" -/
  | retirePriorToViolation : TransportErr
  /-- "Repeated connection id with different sequence number." -/
  | repeatedCidViolation : TransportErr
  /-- "Endpoint is already using 0-len connection ids." -/
  | zeroLenCidViolation : TransportErr
  /-- "No more connection ids to use for new path." -/
  | invalidMigration : TransportErr
  deriving DecidableEq, Repr

inductive TransportErrorCode where
  | protocolViolation : TransportErrorCode
  | invalidMigrationCode : TransportErrorCode
  deriving DecidableEq, Repr

/-- The wire error code each throw site uses. -/
def TransportErr.code : TransportErr → TransportErrorCode
  | .retirePriorToViolation => .protocolViolation
  | .repeatedCidViolation => .protocolViolation
  | .zeroLenCidViolation => .protocolViolation
  | .invalidMigration => .invalidMigrationCode

/-- `updateSimpleFrameOnPacketReceived` (SimpleFrameFunctions.cpp lines
152-294).  Returns the updated connection and the "packet is retransmittable"
boolean; a thrown `QuicTransportException` is an `Except.error` carrying the
connection state at the throw point (unchanged, since every throw happens
before any mutation).  `now` stands for `Clock::now()`.

The stream-state-machine calls made by the STOP_SENDING and
MIN/EXPIRED_STREAM_DATA branches (`sendStopSendingSMHandler`,
`onRecvMinStreamDataFrame`, `onRecvExpiredStreamDataFrame`) act on per-stream
receive/retransmit offsets that this connection slice does not carry; those
branches are external handlers per spec §4.7 and only their return values are
modelled. -/
def updateSimpleFrameOnPacketReceived (conn : Conn) (frame : QuicSimpleFrame)
    (_packetNum : PacketNum) (fromChangedPeerAddress : Bool) (now : Nat) :
    Except (TransportErr × Conn) (Conn × Bool) :=
  match frame with
  | .ping => .ok (conn, true)
  | .stopSending _ _ => .ok (conn, true)
  | .minStreamData _ _ _ => .ok (conn, true)
  | .expiredStreamData _ _ => .ok (conn, true)
  | .pathChallenge pathData =>
      if conn.canRotatePeerConnId then
        .ok ({ conn with
                 pendingFrames :=
                   conn.pendingFrames ++ [.pathResponse pathData] }, false)
      else
        .error (.invalidMigration, conn)
  | .pathResponse pathData =>
      -- Ignore the response if outstandingPathValidation is none or the path
      -- data doesn't match what's in outstandingPathValidation
      match conn.outstandingPathValidation with
      | none => .ok (conn, false)
      | some outstanding =>
          if fromChangedPeerAddress || pathData ≠ outstanding then
            .ok (conn, false)
          else
            .ok ({ conn with
                     outstandingPathValidation := none
                     schedulePathValidationTimeout := false
                     lastRttSample :=
                       some (now - conn.pathChallengeStartTime) }, false)
  | .newConnectionId sequenceNumber retirePriorTo connectionId token =>
      if retirePriorTo > sequenceNumber then
        .error (.retirePriorToViolation, conn)
      else
        match conn.peerConnectionIds.find?
            (fun existing => existing.connId == connectionId) with
        | some existing =>
            if existing.sequenceNumber ≠ sequenceNumber then
              .error (.repeatedCidViolation, conn)
            else
              -- No-op on repeated conn id.
              .ok (conn, false)
        | none =>
            match conn.currentPeerConnId with
            | none => .error (.zeroLenCidViolation, conn)
            | some peerConnId =>
                if peerConnId.bytes.length = 0 then
                  .error (.zeroLenCidViolation, conn)
                else if conn.peerConnectionIds.length =
                    conn.transportSettings.selfActiveConnectionIdLimit + 1 then
                  -- Ignore frame once the peer-cid set is full.
                  .ok (conn, false)
                else
                  .ok ({ conn with
                           peerConnectionIds := conn.peerConnectionIds ++
                             [⟨connectionId, sequenceNumber, token⟩] }, false)
  | .maxStreams maxStreams isForBidirectional =>
      if isForBidirectional then
        .ok ({ conn with maxLocalBidirectionalStreams := maxStreams }, true)
      else
        .ok ({ conn with maxLocalUnidirectionalStreams := maxStreams }, true)
  | .retireConnectionId _ => .ok (conn, false)

/-! ## Write frames and the builder interface used by the rebuilder

`QuicWriteFrame` variants (Types.h); `rstStream` stands in for the write
frames the rebuilder byte-copies in its `default` branch. -/

inductive QuicWriteFrame where
  | writeAck (ackBlocks : List (PacketNum × PacketNum)) (ackDelay : Nat) :
      QuicWriteFrame
  | writeStream (streamId : StreamId) (offset len : Nat) (fin : Bool) :
      QuicWriteFrame
  | writeCrypto (offset len : Nat) : QuicWriteFrame
  | maxData (maximumData : Nat) : QuicWriteFrame
  | maxStreamData (streamId : StreamId) (maximumData : Nat) : QuicWriteFrame
  | padding : QuicWriteFrame
  | simple (frame : QuicSimpleFrame) : QuicWriteFrame
  | rstStream (streamId : StreamId) (errorCode offset : Nat) : QuicWriteFrame
  deriving DecidableEq, Repr

inductive HeaderForm where
  | long : HeaderForm
  | short : HeaderForm
  deriving DecidableEq, Repr

/-- The body sink of a `RegularQuicPacketBuilder` as the rebuilder sees it:
the remaining-bytes budget, the frames whose bytes were emitted into the
body, and the header form of the packet under construction. -/
structure BuilderState where
  remaining : Nat
  emitted : List QuicWriteFrame
  headerForm : HeaderForm
  deriving DecidableEq, Repr

/-- Modelled from the spec: the QUIC varint encoded size (§4.1, RFC 9000
length classes 1/2/4/8 bytes, minimal class chosen). -/
def varintSize (n : Nat) : Nat :=
  if n < 64 then 1 else if n < 16384 then 2 else if n < 2 ^ 30 then 4 else 8

/-- Modelled from the spec: the default ack-delay exponent used for long
headers (`kDefaultAckDelayExponent`, RFC 9000 default 3). -/
def kDefaultAckDelayExponent : Nat := 3

/-- Modelled from the spec: the encoded size of a write frame
(QuicWriteCodec is not part of the sources; sizes follow the RFC 9000 frame
layouts sketched in §4.1-§4.2, with the ack-block encoding coarsened).  The
claims proved below depend only on sizes being positive and deterministic. -/
def frameSize : QuicWriteFrame → Nat
  | .writeAck ackBlocks ackDelay =>
      1 + varintSize ackDelay + varintSize ackBlocks.length +
        (ackBlocks.map (fun b => varintSize b.1 + varintSize b.2)).sum
  | .writeStream _ _ _ _ => 0 -- stream frames are written via the header path
  | .writeCrypto offset len => 1 + varintSize offset + varintSize len + len
  | .maxData maximumData => 1 + varintSize maximumData
  | .maxStreamData streamId maximumData =>
      1 + varintSize streamId + varintSize maximumData
  | .padding => 1
  | .simple frame =>
      match frame with
      | .ping => 1
      | .stopSending streamId errorCode =>
          1 + varintSize streamId + varintSize errorCode
      | .minStreamData streamId maximumData minimumStreamOffset =>
          1 + varintSize streamId + varintSize maximumData +
            varintSize minimumStreamOffset
      | .expiredStreamData streamId minimumStreamOffset =>
          1 + varintSize streamId + varintSize minimumStreamOffset
      | .pathChallenge _ => 1 + 8
      | .pathResponse _ => 1 + 8
      | .newConnectionId _ _ connectionId token =>
          1 + 8 + 1 + 1 + connectionId.bytes.length + token.length
      | .maxStreams maxStreams _ => 1 + varintSize maxStreams
      | .retireConnectionId sequenceNumber => 1 + varintSize sequenceNumber
  | .rstStream streamId errorCode offset =>
      1 + varintSize streamId + varintSize errorCode + varintSize offset

/-- Modelled from the spec: `writeFrame(frame, builder)` of the write codec.
Emits the frame when its encoded size fits the remaining budget and returns
the bytes consumed, or `0` on failure (the codec's failure value). -/
def writeFrame (frame : QuicWriteFrame) (b : BuilderState) :
    Nat × BuilderState :=
  let size := frameSize frame
  if size ≤ b.remaining then
    (size, { b with remaining := b.remaining - size
                    emitted := b.emitted ++ [frame] })
  else (0, b)

/-- Modelled from the spec: `writeSimpleFrame(frame, builder)`. -/
def writeSimpleFrame (frame : QuicSimpleFrame) (b : BuilderState) :
    Nat × BuilderState :=
  writeFrame (.simple frame) b

/-- Modelled from the spec: `writeAckFrame(meta, builder)`.  Succeeds (with
`some`) when the re-encoded ack fits. -/
def writeAckFrame (ackBlocks : List (PacketNum × PacketNum))
    (ackDelay : Nat) (ackDelayExponent : Nat) (b : BuilderState) :
    Option Unit × BuilderState :=
  let sized := QuicWriteFrame.writeAck ackBlocks (ackDelay >>> ackDelayExponent)
  let r := writeFrame sized b
  if r.1 ≠ 0 then (some (), r.2) else (none, b)

/-- Modelled from the spec: `writeStreamFrameHeader(builder, id, offset,
writeBufferLen, flowControlLen, fin)` of the write codec (§4.2, §4.4).  It
clamps the data length to the buffer, the flow-control window and the space
left after the frame header, records the resulting `WriteStreamFrame` in the
builder, sets FIN only when the whole buffer fits, and yields `none` when
nothing (no data and no FIN) can be written.  The returned value is the data
length the caller must then write via `writeStreamFrameData`. -/
def writeStreamFrameHeader (b : BuilderState) (streamId : StreamId)
    (offset writeBufferLen flowControlLen : Nat) (fin : Bool) :
    Option Nat × BuilderState :=
  let headerSize :=
    1 + varintSize streamId + varintSize offset + varintSize writeBufferLen
  if b.remaining < headerSize then (none, b)
  else
    let dataLen := min writeBufferLen
      (min flowControlLen (b.remaining - headerSize))
    let finBit := fin && (dataLen == writeBufferLen)
    if dataLen = 0 && finBit = false then (none, b)
    else
      (some dataLen,
       { b with remaining := b.remaining - headerSize
                emitted := b.emitted ++
                  [.writeStream streamId offset dataLen finBit] })

/-- Modelled from the spec: `writeStreamFrameData(builder, data, dataLen)`
consumes the data bytes reserved by `writeStreamFrameHeader`. -/
def writeStreamFrameData (b : BuilderState) (dataLen : Nat) : BuilderState :=
  { b with remaining := b.remaining - dataLen }

/-- Modelled from the spec: `writeCryptoFrame(offset, data, builder)`:
writes the crypto frame header and as much of the data as fits, returning
the `{offset, len}` actually written. -/
def writeCryptoFrame (offset : Nat) (dataLen : Nat) (b : BuilderState) :
    Option (Nat × Nat) × BuilderState :=
  let headerSize := 1 + varintSize offset + varintSize dataLen
  if b.remaining < headerSize then (none, b)
  else
    let written := min dataLen (b.remaining - headerSize)
    (some (offset, written),
     { b with remaining := b.remaining - (headerSize + written)
              emitted := b.emitted ++ [.writeCrypto offset written] })

/-! ## Packet rebuilder (src/quic/codec/QuicPacketRebuilder.cpp) -/

/-- `OutstandingPacket` as the rebuilder uses it: the packet number of its
header, its frame list, the handshake flag and the optional associated clone
event. -/
structure OutstandingPacket where
  packetNum : PacketNum
  frames : List QuicWriteFrame
  isHandshake : Bool
  associatedEvent : Option PacketNum
  deriving DecidableEq, Repr

/-- Modelled from the spec: `streamFrameMatchesRetransmitBuffer(stream,
frame, buffer)` — the buffer matches when offset, length and FIN all still
agree (spec §4.4/§9: "offset + length + FIN", no match ⇒ skip). -/
def streamFrameMatchesRetransmitBuffer (streamFrame : StreamId × Nat × Nat × Bool)
    (buffer : StreamBuffer) : Bool :=
  buffer.offset == streamFrame.2.1 && buffer.dataLen == streamFrame.2.2.1 &&
    buffer.fin == streamFrame.2.2.2

/-- `PacketRebuilder::cloneRetransmissionBuffer` (QuicPacketRebuilder.cpp
lines 219-246): look the frame's offset up in the stream's retransmission
buffer; only a fully matching entry is cloned, and a zero-length frame clones
no bytes (`frame.len ? clone : nullptr`).  The returned value is the chain
length of the cloned data (`some` ↔ non-null `Buf`). -/
def cloneRetransmissionBuffer (streamId : StreamId) (offset len : Nat)
    (fin : Bool) (stream : StreamState) : Option Nat :=
  match stream.retransmissionBuffer.lookup offset with
  | some buffer =>
      if streamFrameMatchesRetransmitBuffer (streamId, offset, len, fin) buffer
      then (if len ≠ 0 then some buffer.dataLen else none)
      else none
  | none => none

/-- `PacketRebuilder::cloneCryptoRetransmissionBuffer` (QuicPacketRebuilder.cpp
lines 195-217): look the frame's offset up in the 1-RTT crypto stream's
retransmission buffer; a missing entry means the frame is skipped. -/
def cloneCryptoRetransmissionBuffer (conn : Conn) (offset : Nat) :
    Option Nat :=
  match conn.oneRttCryptoRetransmissionBuffer.lookup offset with
  | some buffer => some buffer.dataLen
  | none => none

/-- The four booleans the rebuild loop threads, plus the builder. -/
structure RebuildAcc where
  b : BuilderState
  writeSuccess : Bool
  windowUpdateWritten : Bool
  shouldWriteWindowUpdate : Bool
  notPureAck : Bool
  deriving DecidableEq, Repr

/-- One iteration of the frame loop of `PacketRebuilder::rebuildFromPacket`
(QuicPacketRebuilder.cpp lines 52-180). -/
def rebuildStep (conn : Conn) (acc : RebuildAcc) :
    QuicWriteFrame → RebuildAcc
  | .writeAck ackBlocks ackDelay =>
      let ackDelayExponent :=
        if acc.b.headerForm = .long then kDefaultAckDelayExponent
        else conn.transportSettings.ackDelayExponent
      let r := writeAckFrame ackBlocks ackDelay ackDelayExponent acc.b
      { acc with b := r.2, writeSuccess := r.1.isSome }
  | .writeStream streamId offset len fin =>
      match getStream conn streamId with
      | some stream =>
          if stream.canRetransmit then
            let streamData := cloneRetransmissionBuffer streamId offset len fin
              stream
            let bufferLen := streamData.getD 0
            let r := writeStreamFrameHeader acc.b streamId offset bufferLen
              bufferLen fin
            match r.1 with
            | some dataLen =>
                if dataLen = len then
                  { acc with b := writeStreamFrameData r.2 dataLen
                             notPureAck := true
                             writeSuccess := true }
                else { acc with b := r.2, writeSuccess := false }
            | none => { acc with b := r.2, writeSuccess := false }
          else
            -- stream no longer retransmittable: skipped, counted as success
            { acc with writeSuccess := true }
      | none => { acc with writeSuccess := true }
  | .writeCrypto offset len =>
      -- handshake packets are not cloneable (CHECK in the source); only the
      -- 1-RTT crypto stream is consulted
      match cloneCryptoRetransmissionBuffer conn offset with
      | none => { acc with writeSuccess := true }
      | some dataLen =>
          let r := writeCryptoFrame offset dataLen acc.b
          let ret := match r.1 with
            | some result => result.1 == offset && result.2 == len
            | none => false
          { acc with b := r.2
                     notPureAck := acc.notPureAck || ret
                     writeSuccess := ret }
  | .maxData _ =>
      let r := writeFrame (.maxData conn.freshMaxData) acc.b
      let ret := r.1 ≠ 0
      { acc with b := r.2
                 shouldWriteWindowUpdate := true
                 windowUpdateWritten := acc.windowUpdateWritten || ret
                 notPureAck := acc.notPureAck || ret
                 writeSuccess := true }
  | .maxStreamData streamId _ =>
      match getStream conn streamId with
      | none => { acc with writeSuccess := true }
      | some stream =>
          if !stream.wantsFlowControlUpdate then
            { acc with writeSuccess := true }
          else
            let r := writeFrame
              (.maxStreamData streamId stream.freshMaxStreamData) acc.b
            let ret := r.1 ≠ 0
            { acc with b := r.2
                       shouldWriteWindowUpdate := true
                       windowUpdateWritten := acc.windowUpdateWritten || ret
                       notPureAck := acc.notPureAck || ret
                       writeSuccess := true }
  | .padding =>
      let r := writeFrame .padding acc.b
      { acc with b := r.2, writeSuccess := r.1 ≠ 0 }
  | .simple frame =>
      match updateSimpleFrameOnPacketClone conn frame with
      | none => { acc with writeSuccess := true }
      | some updated =>
          let r := writeSimpleFrame updated acc.b
          let ret := r.1 ≠ 0
          { acc with b := r.2
                     notPureAck := acc.notPureAck || ret
                     writeSuccess := ret }
  | .rstStream streamId errorCode offset =>
      let r := writeFrame (.rstStream streamId errorCode offset) acc.b
      let ret := r.1 ≠ 0
      { acc with b := r.2
                 notPureAck := acc.notPureAck || ret
                 writeSuccess := ret }

/-- The frame loop: runs `rebuildStep` over the packet's frames and stops at
the first failed write (`if (!writeSuccess) return folly::none`); the second
component is `true` when the loop aborted. -/
def rebuildLoop (conn : Conn) (acc : RebuildAcc) :
    List QuicWriteFrame → RebuildAcc × Bool
  | [] => (acc, false)
  | frame :: rest =>
      let acc' := rebuildStep conn acc frame
      if acc'.writeSuccess then rebuildLoop conn acc' rest
      else (acc', true)

/-- `std::set` insertion into `conn.outstandingPacketEvents`. -/
def insertPacketEvent (events : List PacketNum) (e : PacketNum) :
    List PacketNum :=
  if e ∈ events then events else e :: events

/-- `PacketRebuilder::cloneOutstandingPacket` (QuicPacketRebuilder.cpp lines
26-40): reuse the packet's associated event, or mint one keyed by the
packet's own packet number, inserting it into the connection-wide set. -/
def cloneOutstandingPacket (conn : Conn) (packet : OutstandingPacket) :
    PacketNum × Conn × OutstandingPacket :=
  match packet.associatedEvent with
  | some event => (event, conn, packet)
  | none =>
      let packetNum := packet.packetNum
      (packetNum,
       { conn with
           outstandingPacketEvents :=
             insertPacketEvent conn.outstandingPacketEvents packetNum
           outstandingClonedPacketsCount :=
             conn.outstandingClonedPacketsCount + 1 },
       { packet with associatedEvent := some packetNum })

/-- `PacketRebuilder::rebuildFromPacket` (QuicPacketRebuilder.cpp lines
42-193).  Returns the clone event (or `none`), the updated connection and
packet, and the builder (which, like the C++ `builder_`, retains whatever was
written even when the rebuild returns `none`). -/
def rebuildFromPacket (conn : Conn) (packet : OutstandingPacket)
    (b : BuilderState) :
    Option PacketNum × Conn × OutstandingPacket × BuilderState :=
  let acc0 : RebuildAcc :=
    { b := b, writeSuccess := false, windowUpdateWritten := false
      shouldWriteWindowUpdate := false, notPureAck := false }
  let r := rebuildLoop conn acc0 packet.frames
  let acc := r.1
  if r.2 then (none, conn, packet, acc.b)
  else if !acc.notPureAck ||
      (acc.shouldWriteWindowUpdate && !acc.windowUpdateWritten &&
        !acc.writeSuccess) then
    (none, conn, packet, acc.b)
  else
    let c := cloneOutstandingPacket conn packet
    (some c.1, c.2.1, c.2.2, acc.b)

/-- `n` successive rebuilds of the same outstanding packet, each into a fresh
builder `b`, threading the connection and the packet. -/
def rebuildN (b : BuilderState) : Nat → Conn × OutstandingPacket →
    Conn × OutstandingPacket
  | 0, cp => cp
  | n + 1, cp =>
      let r := rebuildFromPacket cp.1 cp.2 b
      rebuildN b n (r.2.1, r.2.2.1)

/-! ## Packet builder finalization (src/quic/codec/QuicPacketBuilder.cpp)

`RegularQuicPacketBuilder::buildPacket` pads short bodies so that header
protection can sample enough ciphertext, then fills in the deferred length
field and packet number. -/

/-- `kMaxPacketNumEncodingSize` (Types.h line 48). -/
def kMaxPacketNumEncodingSize : Nat := 4

/-- Modelled from the spec: the header-protection sample size
(`sizeof(Sample)`, RFC 9001: 16 bytes; the Sample type is defined in the
handshake headers outside src/). -/
def sampleSize : Nat := 16

/-- Modelled from the spec: `kMaxPacketLenSize`, the reservation for the
two-byte length field (§4.2: "the two-byte length field"; QuicConstants.h is
outside src/). -/
def kMaxPacketLenSize : Nat := 2

/-- The state of a `RegularQuicPacketBuilder` at `buildPacket` time: the
remaining budget, the body bytes accumulated by the body appender, the frames
recorded via `appendFrame`, the chosen packet-number encoding length, the
cipher overhead, and whether the header is a long header of a non-Retry
type (only those get the deferred length field). -/
structure RegularBuilder where
  remainingBytes : Nat
  bodyBytes : List Nat
  frames : List QuicWriteFrame
  pnLength : Nat
  cipherOverhead : Nat
  isLongNonRetry : Bool
  deriving DecidableEq, Repr

/-- The padding loop of `buildPacket` (QuicPacketBuilder.cpp lines 194-201):
while the body plus already-added padding plus cipher overhead is below the
minimum and the packet has frames and budget remains beyond the length-field
reservation, emit one single-byte PADDING frame (the one-byte QUIC-integer
encoding of `FrameType::PADDING = 0x00`).  Returns the number of padding
bytes written and the remaining budget. -/
def buildPadLoop (minBodySize cipherOverhead : Nat) (framesEmpty : Bool)
    (bodyLength : Nat) (extraDataWritten : Nat) (remainingBytes : Nat) :
    Nat × Nat :=
  if h : bodyLength + extraDataWritten + cipherOverhead < minBodySize ∧
      framesEmpty = false ∧ remainingBytes > kMaxPacketLenSize then
    buildPadLoop minBodySize cipherOverhead framesEmpty bodyLength
      (extraDataWritten + 1) (remainingBytes - 1)
  else (extraDataWritten, remainingBytes)
termination_by minBodySize - (bodyLength + extraDataWritten + cipherOverhead)
decreasing_by omega

/-- The result of `buildPacket`: the finalized body, and the value of the
deferred length field for long non-Retry headers (`pktnum length + body
length + cipher overhead`). -/
structure BuiltPacket where
  body : List Nat
  lengthField : Option Nat
  deriving DecidableEq, Repr

/-- `RegularQuicPacketBuilder::buildPacket` (QuicPacketBuilder.cpp lines
188-213), body-and-length part: `minBodySize = kMaxPacketNumEncodingSize −
pnLength + sizeof(Sample)`, pad with single `0x00` bytes per `buildPadLoop`,
then compute the length field. -/
def buildPacket (builder : RegularBuilder) : BuiltPacket :=
  let minBodySize := kMaxPacketNumEncodingSize - builder.pnLength + sampleSize
  let r := buildPadLoop minBodySize builder.cipherOverhead
    builder.frames.isEmpty builder.bodyBytes.length 0 builder.remainingBytes
  let body := builder.bodyBytes ++ List.replicate r.1 0
  { body := body
    lengthField :=
      if builder.isLongNonRetry then
        some (builder.pnLength + body.length + builder.cipherOverhead)
      else none }

/-! ## Example states used to instantiate the theorems below -/

/-- A peer connection id of nonzero length. -/
def cidA : ConnectionId := ⟨[9]⟩

/-- A fresh connection id offered by a NEW_CONNECTION_ID frame. -/
def cidB : ConnectionId := ⟨[1, 2, 3, 4]⟩

/-- A connection whose peer-cid set is full:
`selfActiveConnectionIdLimit = 0` and one (initial) entry. -/
def connFull : Conn :=
  { streams := []
    pendingFrames := []
    cancelPingTimeout := false
    schedulePathValidationTimeout := false
    outstandingPathValidation := none
    pathChallengeStartTime := 0
    lastRttSample := none
    peerConnectionIds := [⟨cidA, 0, []⟩]
    transportSettings := ⟨5, 1000, 0, 3⟩
    currentPeerConnId := some cidA
    canRotatePeerConnId := true
    maxLocalBidirectionalStreams := 0
    maxLocalUnidirectionalStreams := 0
    outstandingPacketEvents := []
    outstandingClonedPacketsCount := 0
    freshMaxData := 0
    oneRttCryptoRetransmissionBuffer := [] }

/-- A connection with room for two more peer connection ids. -/
def connRoomy : Conn :=
  { connFull with
      peerConnectionIds := [⟨cidA, 0, []⟩]
      transportSettings := ⟨5, 1000, 2, 3⟩ }

/-! ## C6 — legacy cid-length byte codec round-trip -/

/-- C6 (counterexample): the claim asserts the round-trip for every length in
`{0} ∪ [4, 20]`, but a destination length of 20 encodes to length code 17,
which does not fit the 4-bit nibble: `(17 << 4) | 0` truncates to `0x10` as a
`uint8_t`, which decodes to `(4, 0)`, not `(20, 0)`. -/
theorem decode_encode_cid_lengths_counterexample :
    (20 = 0 ∨ (4 ≤ 20 ∧ 20 ≤ 20)) ∧ (0 = 0 ∨ (4 ≤ 0 ∧ 0 ≤ 20)) ∧
    encodeConnectionIdLengths 20 0 = 0x10 ∧
    decodeConnectionIdLengths (encodeConnectionIdLengths 20 0) = (4, 0) ∧
    decodeConnectionIdLengths (encodeConnectionIdLengths 20 0) ≠ (20, 0) := by
  decide

/-- C6 (amended): the packed cid-length byte codec round-trips for every
destination and source length in `{0} ∪ [4, 18]` — the lengths whose codes
`0` and `n − 3 ∈ [1, 15]` fit in one nibble.  (Lengths 19 and 20 would need
codes 16 and 17, which overflow the nibble, so the round-trip fails there.) -/
theorem decode_encode_cid_lengths_roundtrip (d s : Nat)
    (hd : d = 0 ∨ (4 ≤ d ∧ d ≤ 18)) (hs : s = 0 ∨ (4 ≤ s ∧ s ≤ 18)) :
    decodeConnectionIdLengths (encodeConnectionIdLengths d s) = (d, s) := by
  rcases hd with rfl | ⟨hd1, hd2⟩ <;> rcases hs with rfl | ⟨hs1, hs2⟩
  · decide
  · interval_cases s <;> decide
  · interval_cases d <;> decide
  · interval_cases d <;> interval_cases s <;> decide

/-- C6 (witness): the amended round-trip at the extreme representable
lengths. -/
theorem decode_encode_cid_lengths_roundtrip_witness :
    decodeConnectionIdLengths (encodeConnectionIdLengths 18 4) = (18, 4) :=
  decode_encode_cid_lengths_roundtrip 18 4 (by decide) (by decide)

/-! ## C10 — the clone filter is identity-or-drop -/

/-- C10: `updateSimpleFrameOnPacketClone` never alters a frame: for every
connection state and simple frame the result is either `none` or the frame
itself, and a PATH_RESPONSE frame is always dropped. -/
theorem clone_filter_identity_or_drop (conn : Conn) (frame : QuicSimpleFrame) :
    (updateSimpleFrameOnPacketClone conn frame = none ∨
      updateSimpleFrameOnPacketClone conn frame = some frame) ∧
    (∀ pathData,
      updateSimpleFrameOnPacketClone conn (.pathResponse pathData) = none) := by
  refine ⟨?_, fun _ => rfl⟩
  cases frame with
  | ping => exact .inr rfl
  | stopSending sid ec =>
      by_cases h : streamExists conn sid <;>
        simp [updateSimpleFrameOnPacketClone, h]
  | minStreamData sid md mo =>
      by_cases h : streamExists conn sid <;>
        simp [updateSimpleFrameOnPacketClone, h]
  | expiredStreamData sid mo =>
      by_cases h : streamExists conn sid <;>
        simp [updateSimpleFrameOnPacketClone, h]
  | pathChallenge d =>
      rcases h : conn.outstandingPathValidation with _ | c
      · simp [updateSimpleFrameOnPacketClone, h]
      · by_cases hd : d = c <;> simp [updateSimpleFrameOnPacketClone, h, hd]
  | pathResponse d => exact .inl rfl
  | newConnectionId a b c d => exact .inr rfl
  | maxStreams a b => exact .inr rfl
  | retireConnectionId a => exact .inr rfl

/-! ## C7 — PATH_RESPONSE receive handling -/

/-- C7: receiving a PATH_RESPONSE clears `outstandingPathValidation`, cancels
the path-validation timeout and records the RTT sample
`now − pathChallengeStartTime` exactly when the peer address did not change
and the frame's path data equals the outstanding challenge's; in every case
the handler returns `false`, and in the non-matching case (including a
changed peer address) the connection is left entirely unchanged. -/
theorem path_response_receive (conn : Conn) (pathData : Nat)
    (packetNum : PacketNum) (fromChangedPeerAddress : Bool) (now : Nat) :
    updateSimpleFrameOnPacketReceived conn (.pathResponse pathData) packetNum
        fromChangedPeerAddress now =
      .ok
        ((if fromChangedPeerAddress = false ∧
              conn.outstandingPathValidation = some pathData then
            { conn with
                outstandingPathValidation := none
                schedulePathValidationTimeout := false
                lastRttSample := some (now - conn.pathChallengeStartTime) }
          else conn), false) := by
  simp only [updateSimpleFrameOnPacketReceived]
  rcases h : conn.outstandingPathValidation with _ | c
  · simp [h]
  · cases fromChangedPeerAddress
    · by_cases hd : pathData = c
      · subst hd; simp [h]
      · simp [h, hd, Ne.symm hd]
    · simp [h]

/-! ## C3 — NEW_CONNECTION_ID retirePriorTo validation -/

/-- C3: a NEW_CONNECTION_ID frame with `retirePriorTo > sequenceNumber`
raises a transport exception with code PROTOCOL_VIOLATION tagged at the
retire-prior-to check, carrying the connection unchanged (in particular
`peerConnectionIds` is untouched); a frame with
`retirePriorTo ≤ sequenceNumber` never raises that particular violation. -/
theorem new_connection_id_retire_prior_to (conn : Conn) (seq rpt : Nat)
    (cid : ConnectionId) (token : ResetToken) (packetNum : PacketNum)
    (fromChangedPeerAddress : Bool) (now : Nat) :
    (rpt > seq →
      updateSimpleFrameOnPacketReceived conn
          (.newConnectionId seq rpt cid token) packetNum
          fromChangedPeerAddress now
        = .error (.retirePriorToViolation, conn)) ∧
    (rpt ≤ seq → ∀ conn',
      updateSimpleFrameOnPacketReceived conn
          (.newConnectionId seq rpt cid token) packetNum
          fromChangedPeerAddress now
        ≠ .error (.retirePriorToViolation, conn')) ∧
    TransportErr.code .retirePriorToViolation = .protocolViolation := by
  refine ⟨fun h => ?_, fun h conn' => ?_, rfl⟩
  · simp only [updateSimpleFrameOnPacketReceived]
    rw [if_pos h]
  · simp only [updateSimpleFrameOnPacketReceived]
    rw [if_neg (by omega)]
    split
    · split <;> simp
    · split
      · simp
      · split
        · simp
        · split <;> simp

/-- C3 (witness): on a connection with spare capacity, a frame with
`retirePriorTo = 2 > sequenceNumber = 1` is rejected with the
retire-prior-to PROTOCOL_VIOLATION and the state at the throw is the input
connection. -/
theorem new_connection_id_retire_prior_to_witness :
    updateSimpleFrameOnPacketReceived connRoomy
        (.newConnectionId 1 2 cidB []) 5 false 0
      = .error (.retirePriorToViolation, connRoomy) :=
  (new_connection_id_retire_prior_to connRoomy 1 2 cidB [] 5 false 0).1
    (by decide)

/-! ## C4 — peer connection-id cap -/

/-- C4 (counterexample): the claim asserts that when `peerConnectionIds`
already holds `selfActiveConnectionIdLimit + 1` entries, EVERY further
NEW_CONNECTION_ID frame is silently ignored with no error raised.  But the
retire-prior-to check runs before the cap check: on a full set
(`connFull` has limit 0 and one entry), a frame with `retirePriorTo = 2 >
sequenceNumber = 1` still raises PROTOCOL_VIOLATION instead of being
silently ignored. -/
theorem new_connection_id_cap_counterexample :
    connFull.peerConnectionIds.length =
      connFull.transportSettings.selfActiveConnectionIdLimit + 1 ∧
    updateSimpleFrameOnPacketReceived connFull
        (.newConnectionId 1 2 cidB []) 5 false 0
      = .error (.retirePriorToViolation, connFull) :=
  ⟨rfl, rfl⟩

/-- C4 (amended): for a NEW_CONNECTION_ID frame that passes the validation
checks preceding the cap check (`retirePriorTo ≤ sequenceNumber`, its
connection id is not already present, and the endpoint uses a
nonzero-length peer connection id): when the set already holds
`selfActiveConnectionIdLimit + 1` entries the frame is silently ignored
(returns `false`, nothing appended, no error); otherwise exactly one entry
`{connId, sequenceNumber, token}` is appended.  Moreover — for arbitrary
NEW_CONNECTION_ID frames — every non-throwing execution preserves the
invariant that the set size never exceeds `selfActiveConnectionIdLimit + 1`.
(A frame failing those checks can still raise PROTOCOL_VIOLATION even when
the set is full.) -/
theorem new_connection_id_cap (conn : Conn) (seq rpt : Nat)
    (cid : ConnectionId) (token : ResetToken) (packetNum : PacketNum)
    (fromChangedPeerAddress : Bool) (now : Nat)
    (hvalid : rpt ≤ seq)
    (hnodup :
      conn.peerConnectionIds.find? (fun e => e.connId == cid) = none)
    (hpeer : ∃ c, conn.currentPeerConnId = some c ∧ c.bytes.length ≠ 0) :
    (conn.peerConnectionIds.length =
        conn.transportSettings.selfActiveConnectionIdLimit + 1 →
      updateSimpleFrameOnPacketReceived conn
          (.newConnectionId seq rpt cid token) packetNum
          fromChangedPeerAddress now
        = .ok (conn, false)) ∧
    (conn.peerConnectionIds.length ≠
        conn.transportSettings.selfActiveConnectionIdLimit + 1 →
      updateSimpleFrameOnPacketReceived conn
          (.newConnectionId seq rpt cid token) packetNum
          fromChangedPeerAddress now
        = .ok ({ conn with
                   peerConnectionIds := conn.peerConnectionIds ++
                     [⟨cid, seq, token⟩] }, false)) ∧
    (∀ (seq' rpt' : Nat) (cid' : ConnectionId) (token' : ResetToken)
        (conn' : Conn) (retransmittable : Bool),
      updateSimpleFrameOnPacketReceived conn
          (.newConnectionId seq' rpt' cid' token') packetNum
          fromChangedPeerAddress now = .ok (conn', retransmittable) →
      conn.peerConnectionIds.length ≤
        conn.transportSettings.selfActiveConnectionIdLimit + 1 →
      conn'.peerConnectionIds.length ≤
        conn.transportSettings.selfActiveConnectionIdLimit + 1) := by
  obtain ⟨c, hc, hclen⟩ := hpeer
  refine ⟨fun hfull => ?_, fun hroom => ?_, ?_⟩
  · simp only [updateSimpleFrameOnPacketReceived]
    rw [if_neg (by omega), hnodup, hc]
    simp [hclen, hfull]
  · simp only [updateSimpleFrameOnPacketReceived]
    rw [if_neg (by omega), hnodup, hc]
    simp [hclen, hroom]
  · intro seq' rpt' cid' token' conn' retransmittable hok hlen
    revert hok
    simp only [updateSimpleFrameOnPacketReceived]
    split
    · intro hok
      exact absurd hok (by simp)
    · split
      · -- an entry with the same connection id already exists
        split
        · intro hok
          exact absurd hok (by simp)
        · intro hok
          obtain ⟨h1, -⟩ := by simpa using hok
          exact h1 ▸ hlen
      · -- no duplicate entry
        split
        · intro hok
          exact absurd hok (by simp)
        · split
          · intro hok
            exact absurd hok (by simp)
          · split
            · intro hok
              obtain ⟨h1, -⟩ := by simpa using hok
              exact h1 ▸ hlen
            · intro hok
              obtain ⟨h1, -⟩ := by simpa using hok
              rename_i hcap
              rw [← h1]
              simp only [List.length_append, List.length_cons,
                List.length_nil]
              omega

/-- C4 (witness): on `connRoomy` (limit 2, one entry) a fresh id is appended;
the same frame on the full `connFull` would be ignored. -/
theorem new_connection_id_cap_witness :
    updateSimpleFrameOnPacketReceived connRoomy
        (.newConnectionId 1 0 cidB [7]) 5 false 0
      = .ok ({ connRoomy with
                 peerConnectionIds := connRoomy.peerConnectionIds ++
                   [⟨cidB, 1, [7]⟩] }, false) :=
  (new_connection_id_cap connRoomy 1 0 cidB [7] 5 false 0 (by decide)
      (by decide) ⟨cidA, rfl, by decide⟩).2.1 (by decide)

/-! ## C9 — pacer token non-negativity -/

/-- Every single pacer operation keeps the token count non-negative: the
`onPacketSent` decrement is guarded by `if (tokens_)`, `onPacketsLoss` sets
zero, and the other operations only add non-negative amounts. -/
theorem pacerStep_tokens_nonneg (ts : TransportSettings) (p : PacerState)
    (op : PacerOp) (h : 0 ≤ p.tokens) : 0 ≤ (pacerStep ts p op).tokens := by
  cases op with
  | sent =>
      simp only [pacerStep, onPacketSent]
      split
      · dsimp only
        omega
      · omega
  | loss => simp [pacerStep, onPacketsLoss]
  | refresh rtt rate =>
      simp only [pacerStep, refreshPacingRate]
      split <;> dsimp only <;> omega
  | schedule t => simpa [pacerStep, onPacedWriteScheduled] using h
  | update now =>
      simp only [pacerStep, updateAndGetWriteBatchSize]
      split
      · simpa using h
      · split
        · simpa using h
        · split
          · simpa using h
          · split
            · simpa using h
            · dsimp only
              split <;> omega
  | setAppLimitedOp b => simpa [pacerStep] using h

/-- The token count of any pacer state reachable from the constructor state
is non-negative. -/
theorem runPacer_tokens_nonneg (ts : TransportSettings) (ops : List PacerOp)
    (p : PacerState) (h : 0 ≤ p.tokens) :
    0 ≤ (runPacer ts p ops).tokens := by
  induction ops generalizing p with
  | nil => simpa [runPacer] using h
  | cons op rest ih =>
      simpa [runPacer] using
        ih (pacerStep ts p op) (pacerStep_tokens_nonneg ts p op h)

/-- C9: in every pacer state reachable by a sequence of pacer calls from the
constructor state, the token count is ≥ 0 and `updateAndGetWriteBatchSize`
returns a value ≥ 0; `onPacketSent` on a zero token count is a no-op (no
wraparound), and `onPacketsLoss` sets the token count to exactly zero. -/
theorem pacer_tokens_never_negative (ts : TransportSettings)
    (ops : List PacerOp) (p : PacerState)
    (hreach : p = runPacer ts (DefaultPacer.init ts) ops)
    (pz : PacerState) (hz : pz.tokens = 0) (now : Nat) :
    0 ≤ p.tokens ∧
    0 ≤ (updateAndGetWriteBatchSize ts p now).2 ∧
    onPacketSent pz = pz ∧
    (onPacketsLoss p).tokens = 0 := by
  have hp : 0 ≤ p.tokens := by
    rw [hreach]
    exact runPacer_tokens_nonneg ts ops _ (by simp [DefaultPacer.init])
  refine ⟨hp, ?_, ?_, rfl⟩
  · simp only [updateAndGetWriteBatchSize]
    split
    · positivity
    · split
      · positivity
      · split
        · simpa using hp
        · split
          · simpa using hp
          · simp only []
            split <;> omega
  · simp [onPacketSent, hz]

/-- C9 (witness): the invariant instantiated on a concrete call sequence
that exercises send, refresh, drift compensation and loss. -/
theorem pacer_tokens_never_negative_witness :
    0 ≤ (runPacer ⟨5, 1000, 0, 3⟩ (DefaultPacer.init ⟨5, 1000, 0, 3⟩)
          [.sent, .refresh 2000 (1000, 7), .schedule 40, .update 1040,
           .loss, .sent]).tokens ∧
    0 ≤ (updateAndGetWriteBatchSize ⟨5, 1000, 0, 3⟩
          (runPacer ⟨5, 1000, 0, 3⟩ (DefaultPacer.init ⟨5, 1000, 0, 3⟩)
            [.sent, .refresh 2000 (1000, 7), .schedule 40, .update 1040,
             .loss, .sent]) 2000).2 ∧
    onPacketSent ⟨0, 5, 1000, none, 5, false⟩ = ⟨0, 5, 1000, none, 5, false⟩ ∧
    (onPacketsLoss (runPacer ⟨5, 1000, 0, 3⟩
        (DefaultPacer.init ⟨5, 1000, 0, 3⟩)
        [.sent, .refresh 2000 (1000, 7), .schedule 40, .update 1040,
         .loss, .sent])).tokens = 0 :=
  pacer_tokens_never_negative ⟨5, 1000, 0, 3⟩
    [.sent, .refresh 2000 (1000, 7), .schedule 40, .update 1040,
     .loss, .sent] _ rfl ⟨0, 5, 1000, none, 5, false⟩ rfl 2000

/-! ## C8 — pacer timer-drift compensation -/

/-- C8: with pacing enabled (non-zero write interval, not app-limited) and a
write scheduled at `t`, observing at exactly `t + interval` computes
`adjusted = (now − scheduled) + interval = 2·interval`, caches
`ceil(adjusted · burst / interval) = 2·burst`, adds the excess
`cached − burst = burst` to the token count, and returns the tokens — i.e.
exactly `burst` additional tokens over the pre-call token count. -/
theorem pacer_timer_drift (ts : TransportSettings) (p : PacerState) (t : Nat)
    (hApp : p.appLimited = false) (hInt : p.writeInterval ≠ 0)
    (hSched : p.scheduledWriteTime = some t) :
    (updateAndGetWriteBatchSize ts p (t + p.writeInterval)).1.cachedBatchSize
        = 2 * p.batchSize ∧
    (updateAndGetWriteBatchSize ts p (t + p.writeInterval)).1.tokens
        = p.tokens + (p.batchSize : Int) ∧
    (updateAndGetWriteBatchSize ts p (t + p.writeInterval)).2
        = p.tokens + (p.batchSize : Int) := by
  have hlt : ¬ t ≥ t + p.writeInterval := by omega
  have hadj : t + p.writeInterval - t + p.writeInterval
      = 2 * p.writeInterval := by omega
  have hmul : 2 * p.writeInterval * p.batchSize
      = p.writeInterval * (2 * p.batchSize) := by ring
  have hcached : (t + p.writeInterval - t + p.writeInterval) * p.batchSize +
        p.writeInterval - 1 = p.writeInterval * (2 * p.batchSize) +
        (p.writeInterval - 1) := by
    rw [hadj, hmul]
    omega
  have hdiv : ((t + p.writeInterval - t + p.writeInterval) * p.batchSize +
        p.writeInterval - 1) / p.writeInterval = 2 * p.batchSize := by
    rw [hcached, Nat.mul_add_div (Nat.pos_of_ne_zero hInt),
      Nat.div_eq_of_lt (by omega)]
    omega
  simp only [updateAndGetWriteBatchSize, hApp, Bool.false_eq_true, if_false,
    hInt, if_neg hInt, hSched, hlt, if_false, hdiv]
  rcases Nat.eq_zero_or_pos p.batchSize with hb | hb
  · simp [hb]
  · have hgt : 2 * p.batchSize > p.batchSize := by omega
    simp only [hgt, if_true, if_pos hgt]
    repeat' apply And.intro
    all_goals first | trivial | (dsimp only; omega)

/-- C8 (witness): a pacer with interval 1000 μs, burst 10 and 3 tokens,
scheduled at t = 5000 and observed at 6000, caches 20 and returns 13 =
3 + 10 tokens. -/
theorem pacer_timer_drift_witness :
    (updateAndGetWriteBatchSize ⟨5, 1000, 0, 3⟩
        ⟨3, 10, 1000, some 5000, 10, false⟩ (5000 + 1000)).1.cachedBatchSize
      = 20 ∧
    (updateAndGetWriteBatchSize ⟨5, 1000, 0, 3⟩
        ⟨3, 10, 1000, some 5000, 10, false⟩ (5000 + 1000)).2 = 13 := by
  have h := pacer_timer_drift ⟨5, 1000, 0, 3⟩
    ⟨3, 10, 1000, some 5000, 10, false⟩ 5000 rfl (by decide) rfl
  exact ⟨h.1, h.2.2⟩

/-! ## C5 — packet builder minimum-body padding -/

/-- The padding loop adds nothing when the packet holds no frames. -/
theorem buildPadLoop_framesEmpty (minBody co bodyLen extra rem : Nat) :
    buildPadLoop minBody co true bodyLen extra rem = (extra, rem) := by
  unfold buildPadLoop
  rw [dif_neg (by simp)]

/-- The padding loop adds nothing when the budget does not exceed the
length-field reservation. -/
theorem buildPadLoop_noBudget (minBody co : Nat) (framesEmpty : Bool)
    (bodyLen extra rem : Nat) (h : rem ≤ kMaxPacketLenSize) :
    buildPadLoop minBody co framesEmpty bodyLen extra rem = (extra, rem) := by
  unfold buildPadLoop
  rw [dif_neg (fun hc => absurd hc.2.2 (by omega))]

/-- With frames present and enough budget, the padding loop reaches the
minimum body size. -/
theorem buildPadLoop_min (minBody co bodyLen : Nat) :
    ∀ n extra rem, minBody - (bodyLen + extra + co) ≤ n →
      kMaxPacketLenSize + (minBody - (bodyLen + extra + co)) ≤ rem →
      minBody ≤ bodyLen + (buildPadLoop minBody co false bodyLen extra rem).1
        + co := by
  intro n
  induction n with
  | zero =>
      intro extra rem h1 _h2
      unfold buildPadLoop
      rw [dif_neg (fun hc => absurd hc.1 (by omega))]
      dsimp only
      omega
  | succ n ih =>
      intro extra rem h1 h2
      unfold buildPadLoop
      by_cases hcond : bodyLen + extra + co < minBody ∧ false = false ∧
          rem > kMaxPacketLenSize
      · rw [dif_pos hcond]
        exact ih (extra + 1) (rem - 1) (by omega) (by omega)
      · rw [dif_neg hcond]
        dsimp only
        simp only [eq_self_iff_true, true_and] at hcond
        omega

/-- A builder at `buildPacket` time whose body is too short for the
header-protection sample but which recorded no frames. -/
def shortEmptyBuilder : RegularBuilder :=
  { remainingBytes := 1000, bodyBytes := [], frames := [], pnLength := 1
    cipherOverhead := 0, isLongNonRetry := true }

/-- C5 (counterexample): the claim asserts that EVERY built packet with
`body length + cipher overhead < 4 + pktnum-len` is padded to at least
`4 + pktnum-len`, but the padding loop runs only while the packet has at
least one frame: a frameless builder with an empty body (body 0 + overhead 0
< 4 + 1) finalizes to a body of length 0 < 4 + 1. -/
theorem builder_min_body_padding_counterexample :
    shortEmptyBuilder.bodyBytes.length + shortEmptyBuilder.cipherOverhead <
      4 + shortEmptyBuilder.pnLength ∧
    (buildPacket shortEmptyBuilder).body.length <
      4 + shortEmptyBuilder.pnLength := by
  refine ⟨by decide, ?_⟩
  simp [buildPacket, shortEmptyBuilder, buildPadLoop_framesEmpty]

/-- C5 (amended): for a built packet whose appended body length plus cipher
overhead is below `4 + packet-number-length`, PROVIDED the packet recorded at
least one frame and the remaining budget exceeds the length-field
reservation by the minimum body size, the finalized body length is at least
`4 + packet-number-length`; unconditionally the finalized body is exactly
the originally appended body bytes followed by trailing single-byte `0x00`
PADDING frames, and no padding at all is added for a frameless packet or
once the budget is down to the length-field reservation. -/
theorem builder_min_body_padding (b : RegularBuilder)
    (hpn1 : 1 ≤ b.pnLength) (hpn4 : b.pnLength ≤ 4)
    (hshort : b.bodyBytes.length + b.cipherOverhead < 4 + b.pnLength)
    (hframes : b.frames.isEmpty = false)
    (hbudget : kMaxPacketLenSize +
        (kMaxPacketNumEncodingSize - b.pnLength + sampleSize) ≤
        b.remainingBytes) :
    4 + b.pnLength ≤ (buildPacket b).body.length ∧
    (∃ k, (buildPacket b).body = b.bodyBytes ++ List.replicate k 0) ∧
    (∀ b' : RegularBuilder, b'.frames.isEmpty = true →
      (buildPacket b').body = b'.bodyBytes) ∧
    (∀ b' : RegularBuilder, b'.remainingBytes ≤ kMaxPacketLenSize →
      (buildPacket b').body = b'.bodyBytes) := by
  refine ⟨?_, ?_, ?_, ?_⟩
  · have hmin := buildPadLoop_min
      (kMaxPacketNumEncodingSize - b.pnLength + sampleSize) b.cipherOverhead
      b.bodyBytes.length
      (kMaxPacketNumEncodingSize - b.pnLength + sampleSize) 0 b.remainingBytes
      (by omega) (by omega)
    simp only [buildPacket, hframes, List.length_append,
      List.length_replicate]
    simp only [kMaxPacketNumEncodingSize, sampleSize,
      kMaxPacketLenSize] at hmin hbudget ⊢
    omega
  · simp only [buildPacket]
    exact ⟨_, rfl⟩
  · intro b' hb'
    simp only [buildPacket, hb', buildPadLoop_framesEmpty,
      List.replicate_zero, List.append_nil]
  · intro b' hb'
    simp only [buildPacket, buildPadLoop_noBudget _ _ _ _ _ _ hb',
      List.replicate_zero, List.append_nil]

/-- C5 (witness): a two-byte body with one recorded frame, packet-number
length 1 and no cipher overhead is padded up to at least 5 bytes. -/
theorem builder_min_body_padding_witness :
    4 + (1 : Nat) ≤
      (buildPacket ⟨1000, [7, 7], [.padding], 1, 0, true⟩).body.length :=
  (builder_min_body_padding ⟨1000, [7, 7], [.padding], 1, 0, true⟩
    (by decide) (by decide) (by decide) (by decide) (by decide)).1

/-! ## C1 — STREAM frames whose retransmission data is gone -/

/-- Writing a stream-frame header against an empty (zero-length) buffer
either writes nothing or writes a data length of zero (a pure FIN). -/
theorem writeStreamFrameHeader_zeroBuffer (bst : BuilderState)
    (streamId offset : Nat) (fin : Bool) :
    (writeStreamFrameHeader bst streamId offset 0 0 fin).1 = none ∨
    (writeStreamFrameHeader bst streamId offset 0 0 fin).1 = some 0 := by
  simp only [writeStreamFrameHeader]
  split
  · exact .inl rfl
  · split
    · exact .inl rfl
    · right
      simp

/-- When the stream still exists and is retransmittable but
`cloneRetransmissionBuffer` finds no matching buffer, the rebuild step for a
stream frame of nonzero length fails (`writeSuccess = false`). -/
theorem rebuildStep_staleStream_fails (conn : Conn) (acc : RebuildAcc)
    (streamId offset len : Nat) (fin : Bool) (st : StreamState)
    (hst : getStream conn streamId = some st)
    (hret : st.canRetransmit = true)
    (hclone : cloneRetransmissionBuffer streamId offset len fin st = none)
    (hlen : len ≠ 0) :
    (rebuildStep conn acc
      (.writeStream streamId offset len fin)).writeSuccess = false := by
  simp only [rebuildStep, hst, hret, if_true, hclone, Option.getD_none]
  rcases writeStreamFrameHeader_zeroBuffer acc.b streamId offset fin
    with h | h <;> simp only [h]
  rw [if_neg (by omega)]

/-- A stream state whose retransmission buffer no longer holds offset 0. -/
def staleStream : StreamState :=
  { retransmissionBuffer := [], canRetransmit := true
    wantsFlowControlUpdate := false, freshMaxStreamData := 0 }

/-- A stream whose buffer at offset 0 was truncated to 5 bytes, so a frame
of length 10 no longer matches it. -/
def truncatedStream : StreamState :=
  { retransmissionBuffer := [(0, ⟨0, 5, false⟩)], canRetransmit := true
    wantsFlowControlUpdate := false, freshMaxStreamData := 0 }

/-- A connection with live stream 0 in the stale state. -/
def connStale : Conn := { connFull with streams := [(0, staleStream)] }

/-- A connection with live stream 1 in the truncated state. -/
def connTruncated : Conn := { connFull with streams := [(1, truncatedStream)] }

/-- A fresh short-header builder with ample space. -/
def freshBuilder : BuilderState :=
  { remaining := 1000, emitted := [], headerForm := .short }

/-- An outstanding packet carrying a stale stream frame followed by a PING
frame. -/
def stalePacket : OutstandingPacket :=
  { packetNum := 42, frames := [.writeStream 0 0 10 false, .simple .ping]
    isHandshake := false, associatedEvent := none }

/-- C1 (counterexample): stream 0 exists and is retransmittable, its
retransmission buffer no longer holds the frame's offset, yet
`rebuildFromPacket` does NOT drop the frame quietly and continue: it aborts
the whole rebuild (returns no clone event), emitting nothing — the following
PING frame is never rebuilt, whereas the claim requires the rebuild to
continue with it. -/
theorem stream_frame_rebuild_counterexample :
    getStream connStale 0 = some staleStream ∧
    staleStream.canRetransmit = true ∧
    staleStream.retransmissionBuffer.lookup 0 = none ∧
    (rebuildFromPacket connStale stalePacket freshBuilder).1 = none ∧
    (rebuildFromPacket connStale stalePacket
      freshBuilder).2.2.2.emitted = [] := by
  decide

/-- C1 (amended): in `rebuildFromPacket`'s STREAM-frame handling, the quiet
skip (success, nothing emitted, rebuild continues) happens exactly when the
stream is gone or no longer retransmittable.  When the stream still exists
and is retransmittable but the frame's offset is no longer in the
retransmission buffer (or the stored buffer no longer matches the frame's
length and FIN), a frame of nonzero length makes the step fail and the whole
rebuild abort: `rebuildFromPacket` returns no clone event and leaves the
connection and packet unchanged. -/
theorem stream_frame_rebuild (conn : Conn) (acc : RebuildAcc)
    (bst : BuilderState) (streamId offset len : Nat) (fin : Bool) :
    (getStream conn streamId = none →
      rebuildStep conn acc (.writeStream streamId offset len fin)
        = { acc with writeSuccess := true }) ∧
    (∀ st, getStream conn streamId = some st → st.canRetransmit = false →
      rebuildStep conn acc (.writeStream streamId offset len fin)
        = { acc with writeSuccess := true }) ∧
    (∀ st, getStream conn streamId = some st → st.canRetransmit = true →
      cloneRetransmissionBuffer streamId offset len fin st = none →
      len ≠ 0 →
      (rebuildStep conn acc
        (.writeStream streamId offset len fin)).writeSuccess = false) ∧
    (∀ (packet : OutstandingPacket) (rest : List QuicWriteFrame)
        (st : StreamState),
      packet.frames = .writeStream streamId offset len fin :: rest →
      getStream conn streamId = some st → st.canRetransmit = true →
      cloneRetransmissionBuffer streamId offset len fin st = none →
      len ≠ 0 →
      (rebuildFromPacket conn packet bst).1 = none ∧
      (rebuildFromPacket conn packet bst).2.1 = conn ∧
      (rebuildFromPacket conn packet bst).2.2.1 = packet) := by
  refine ⟨?_, ?_, ?_, ?_⟩
  · intro h
    simp [rebuildStep, h]
  · intro st hst hret
    simp [rebuildStep, hst, hret]
  · intro st hst hret hclone hlen
    exact rebuildStep_staleStream_fails conn acc streamId offset len fin st
      hst hret hclone hlen
  · intro packet rest st hframes hst hret hclone hlen
    have hstep := rebuildStep_staleStream_fails conn
      ⟨bst, false, false, false, false⟩ streamId offset len fin st
      hst hret hclone hlen
    simp only [rebuildFromPacket, hframes, rebuildLoop, hstep,
      Bool.false_eq_true, if_false]
    exact ⟨rfl, rfl, rfl⟩

/-- C1 (witness): the amended behavior on a buffer truncated (e.g. by a
received MIN_STREAM_DATA) to a non-matching length: the rebuild aborts with
no clone event and an unchanged connection. -/
theorem stream_frame_rebuild_witness :
    (rebuildFromPacket connTruncated
      ⟨7, [.writeStream 1 0 10 false], false, none⟩ freshBuilder).1 = none ∧
    (rebuildFromPacket connTruncated
      ⟨7, [.writeStream 1 0 10 false], false, none⟩ freshBuilder).2.1
      = connTruncated :=
  let h := (stream_frame_rebuild connTruncated
    ⟨freshBuilder, false, false, false, false⟩ freshBuilder 1 0 10
    false).2.2.2 ⟨7, [.writeStream 1 0 10 false], false, none⟩ []
    truncatedStream rfl rfl rfl (by decide) (by decide)
  ⟨h.1, h.2.1⟩

/-! ## C2 — clone events -/

/-- `rebuildFromPacket` either returns no event leaving connection and packet
unchanged, or returns the event minted/reused by `cloneOutstandingPacket`
together with the state that call produces. -/
theorem rebuildFromPacket_cases (conn : Conn) (packet : OutstandingPacket)
    (b : BuilderState) :
    ((rebuildFromPacket conn packet b).1 = none ∧
      (rebuildFromPacket conn packet b).2.1 = conn ∧
      (rebuildFromPacket conn packet b).2.2.1 = packet) ∨
    ((rebuildFromPacket conn packet b).1
        = some (cloneOutstandingPacket conn packet).1 ∧
      (rebuildFromPacket conn packet b).2.1
        = (cloneOutstandingPacket conn packet).2.1 ∧
      (rebuildFromPacket conn packet b).2.2.1
        = (cloneOutstandingPacket conn packet).2.2) := by
  simp only [rebuildFromPacket]
  split
  · exact .inl ⟨rfl, rfl, rfl⟩
  · split
    · exact .inl ⟨rfl, rfl, rfl⟩
    · exact .inr ⟨rfl, rfl, rfl⟩

/-- On a packet that already carries an associated event,
`cloneOutstandingPacket` reuses it, changing nothing. -/
theorem cloneOutstandingPacket_reuse (conn : Conn)
    (packet : OutstandingPacket) (e : PacketNum)
    (h : packet.associatedEvent = some e) :
    cloneOutstandingPacket conn packet = (e, conn, packet) := by
  simp [cloneOutstandingPacket, h]

/-- On a packet with no associated event, `cloneOutstandingPacket` mints the
event keyed by the packet's own packet number. -/
theorem cloneOutstandingPacket_fresh (conn : Conn)
    (packet : OutstandingPacket) (h : packet.associatedEvent = none) :
    cloneOutstandingPacket conn packet =
      (packet.packetNum,
       { conn with
           outstandingPacketEvents :=
             insertPacketEvent conn.outstandingPacketEvents packet.packetNum
           outstandingClonedPacketsCount :=
             conn.outstandingClonedPacketsCount + 1 },
       { packet with associatedEvent := some packet.packetNum }) := by
  simp [cloneOutstandingPacket, h]

/-- A rebuild of a packet that already carries an associated event never
changes the connection or the packet. -/
theorem rebuildFromPacket_preserves (conn : Conn)
    (packet : OutstandingPacket) (b : BuilderState) (e : PacketNum)
    (h : packet.associatedEvent = some e) :
    (rebuildFromPacket conn packet b).2.1 = conn ∧
    (rebuildFromPacket conn packet b).2.2.1 = packet := by
  rcases rebuildFromPacket_cases conn packet b with ⟨-, h1, h2⟩ | ⟨-, h1, h2⟩
  · exact ⟨h1, h2⟩
  · rw [cloneOutstandingPacket_reuse conn packet e h] at h1 h2
    exact ⟨h1, h2⟩

/-- Once the packet carries an associated event, any number of further
rebuilds leaves the connection-packet pair fixed. -/
theorem rebuildN_fixed (b : BuilderState) (n : Nat)
    (cp : Conn × OutstandingPacket) (e : PacketNum)
    (h : cp.2.associatedEvent = some e) : rebuildN b n cp = cp := by
  induction n generalizing cp with
  | zero => rfl
  | succ n ih =>
      simp only [rebuildN]
      obtain ⟨h1, h2⟩ := rebuildFromPacket_preserves cp.1 cp.2 b e h
      rw [h1, h2]
      exact ih (cp.1, cp.2) h

/-- C2: for an outstanding packet with no associated event whose packet
number is not yet an outstanding packet event, `rebuildFromPacket` returns no
clone event exactly when the frame loop aborted, nothing but ACK/PADDING was
cloned (`notPureAck` stayed false), or a window update was needed, none was
written and the last write failed; when it returns an event, the event equals
the packet's own packet number, it is inserted into
`conn.outstandingPacketEvents` (which then holds exactly one event for the
group), and the packet's `associatedEvent` is set to it; returning no event
changes nothing; and any number of further rebuilds of the same packet reuse
that event — the set still holds exactly one event for the group. -/
theorem rebuild_clone_event (conn : Conn) (packet : OutstandingPacket)
    (b : BuilderState) (hA : packet.associatedEvent = none)
    (hN : packet.packetNum ∉ conn.outstandingPacketEvents) (n : Nat) :
    ((rebuildFromPacket conn packet b).1 = none ↔
      ((rebuildLoop conn ⟨b, false, false, false, false⟩ packet.frames).2
          = true ∨
       (rebuildLoop conn ⟨b, false, false, false, false⟩
          packet.frames).1.notPureAck = false ∨
       ((rebuildLoop conn ⟨b, false, false, false, false⟩
            packet.frames).1.shouldWriteWindowUpdate = true ∧
        (rebuildLoop conn ⟨b, false, false, false, false⟩
            packet.frames).1.windowUpdateWritten = false ∧
        (rebuildLoop conn ⟨b, false, false, false, false⟩
            packet.frames).1.writeSuccess = false))) ∧
    (∀ e, (rebuildFromPacket conn packet b).1 = some e →
      e = packet.packetNum ∧
      (rebuildFromPacket conn
          packet b).2.1.outstandingPacketEvents.count packet.packetNum = 1 ∧
      (rebuildFromPacket conn packet b).2.2.1.associatedEvent
        = some packet.packetNum) ∧
    ((rebuildFromPacket conn packet b).1 = none →
      (rebuildFromPacket conn packet b).2.1 = conn ∧
      (rebuildFromPacket conn packet b).2.2.1 = packet) ∧
    ((rebuildFromPacket conn packet b).1.isSome = true →
      (rebuildN b n ((rebuildFromPacket conn packet b).2.1,
          (rebuildFromPacket conn packet b).2.2.1)).1.outstandingPacketEvents.count
          packet.packetNum = 1 ∧
      (rebuildN b n ((rebuildFromPacket conn packet b).2.1,
          (rebuildFromPacket conn packet b).2.2.1)).2.associatedEvent
        = some packet.packetNum) := by
  have hcount : (insertPacketEvent conn.outstandingPacketEvents
      packet.packetNum).count packet.packetNum = 1 := by
    simp only [insertPacketEvent, hN, if_false]
    rw [List.count_cons_self, List.count_eq_zero.mpr hN]
  refine ⟨?_, ?_, ?_, ?_⟩
  · simp only [rebuildFromPacket]
    rcases hL : rebuildLoop conn ⟨b, false, false, false, false⟩ packet.frames
      with ⟨acc, ab⟩
    cases ab
    · dsimp only
      rw [if_neg (by simp)]
      by_cases hnp : acc.notPureAck <;>
        by_cases hsw : acc.shouldWriteWindowUpdate <;>
          by_cases hww : acc.windowUpdateWritten <;>
            by_cases hws : acc.writeSuccess <;>
              simp [hnp, hsw, hww, hws]
    · simp
  · intro e he
    rcases rebuildFromPacket_cases conn packet b with ⟨h0, -, -⟩ |
        ⟨h0, h1, h2⟩
    · rw [h0] at he
      exact absurd he (by simp)
    · rw [cloneOutstandingPacket_fresh conn packet hA] at h0 h1 h2
      rw [h0] at he
      refine ⟨by simpa using he.symm, ?_, ?_⟩
      · rw [h1]
        exact hcount
      · rw [h2]
  · intro he
    rcases rebuildFromPacket_cases conn packet b with ⟨-, h1, h2⟩ |
        ⟨h0, -, -⟩
    · exact ⟨h1, h2⟩
    · rw [h0] at he
      exact absurd he (by simp)
  · intro hs
    rcases rebuildFromPacket_cases conn packet b with ⟨h0, -, -⟩ |
        ⟨h0, h1, h2⟩
    · rw [h0] at hs
      exact absurd hs (by simp)
    · rw [cloneOutstandingPacket_fresh conn packet hA] at h0 h1 h2
      have hfix := rebuildN_fixed b n
        ((rebuildFromPacket conn packet b).2.1,
         (rebuildFromPacket conn packet b).2.2.1) packet.packetNum
        (by rw [h2])
      rw [hfix]
      refine ⟨?_, by rw [h2]⟩
      rw [h1]
      exact hcount

/-- An outstanding packet carrying one PING frame. -/
def pingPacket : OutstandingPacket :=
  { packetNum := 42, frames := [.simple .ping], isHandshake := false
    associatedEvent := none }

/-- C2 (witness): rebuilding a PING-carrying packet mints event 42 = its
packet number; three further rebuilds reuse it and
`outstandingPacketEvents` still holds exactly one event for the group. -/
theorem rebuild_clone_event_witness :
    (rebuildFromPacket connFull pingPacket freshBuilder).1 = some 42 ∧
    (rebuildN freshBuilder 3
        ((rebuildFromPacket connFull pingPacket freshBuilder).2.1,
         (rebuildFromPacket connFull pingPacket
            freshBuilder).2.2.1)).1.outstandingPacketEvents.count 42 = 1 := by
  have h := rebuild_clone_event connFull pingPacket freshBuilder rfl
    (by decide) 3
  exact ⟨by decide, (h.2.2.2 (by decide)).1⟩

end Mvfst
